import Mathlib

/-!
Verification development for the Kanban task-board application: the task store
and client tool-call executor, the tool-call batch loop of the chat component,
the kanban-chat edge-function error mapping, the board page aggregation, and
the streaming server-sent-event decoder of the streaming chat variant.
-/

namespace ZenBoard

/-- Workflow status strings permitted by the check constraint on the tasks
table (`tasks_status_check` in the repository migration). -/
def statusOk (s : String) : Bool :=
  s = "todo" || s = "in_progress" || s = "done"

/-- A row of the tasks table, with the columns the application reads and
writes: identity, owner, title, optional description, priority and status
strings, optional due date, tags, integer position, optional estimated
duration, and the optional completion timestamp `finalitzacio_tasca`. -/
structure TaskRow where
  id : String
  user_id : String
  title : String
  description : Option String
  priority : String
  status : String
  due_date : Option String
  tags : List String
  position : Nat
  duracio_estimada : Option Nat
  finalitzacio_tasca : Option String
deriving DecidableEq, Repr

/-- The argument record of a tool call after its arguments string has been
parsed: each field is either present with a value or absent (the code reads
the fields of the dynamic record without validation). -/
structure ToolArgs where
  title : Option String := none
  description : Option String := none
  priority : Option String := none
  status : Option String := none
  due_date : Option String := none
  tags : Option (List String) := none
  task_id : Option String := none
deriving DecidableEq, Repr

/-- The three action kinds of an ActionResult. -/
inductive ActionType
  | create
  | edit
  | delete
deriving DecidableEq, Repr

/-- The confirmation record returned by the executor: the action kind and the
affected task title for display. -/
structure ActionResult where
  type : ActionType
  taskTitle : String
deriving DecidableEq, Repr

/-- The observable outcome of one `executeToolCall` invocation: the store
contents afterwards, the destructive toasts issued, whether `onTasksChanged`
(board reconciliation) was triggered, and the returned ActionResult. -/
structure ExecOutcome where
  store : List TaskRow
  toasts : List String
  reconciled : Bool
  result : Option ActionResult
deriving DecidableEq, Repr

/-- Title of the destructive toast of the executor catch block. -/
def execErrorToast : String := "Error executant l\x27acció"

/-- Title of the destructive toast of the outer catch of `sendMessage`. -/
def connErrorToast : String := "No s\x27ha pogut connectar amb la IA."

/-- Title of the destructive toast shown on an HTTP 429 response. -/
def rateLimitToast : String := "Límit superat"

/-- Title of the destructive toast shown on an HTTP 402 response. -/
def quotaToast : String := "Crèdits esgotats"

/-- Modelled from the spec: the store assigns the identity of an inserted row
(the insert sends no id; the backend platform generates an opaque one).  It is
modelled as a tag fresh relative to the current store size. -/
def freshId (store : List TaskRow) : String := "task-" ++ toString store.length

/-- The sparse patch built by the edit_task branch (`cleanUpdates`): exactly
the six checked fields (title, description, priority, status, due_date, tags),
each applied only when provided; all other columns are left untouched. -/
def applyEdit (r : TaskRow) (args : ToolArgs) : TaskRow :=
  { r with
    title := args.title.getD r.title,
    description := match args.description with
      | some d => some d
      | none => r.description,
    priority := args.priority.getD r.priority,
    status := args.status.getD r.status,
    due_date := match args.due_date with
      | some d => some d
      | none => r.due_date,
    tags := args.tags.getD r.tags }

/-- Row filter of the update and delete store calls: the row matches when its
id equals the task_id argument and its owner is the calling user. -/
def rowMatches (tid : Option String) (uid : String) (r : TaskRow) : Bool :=
  tid == some r.id && r.user_id == uid

/-- The display title of an edit or delete confirmation: the title found for
the task id in the client task list, with the generic fallback. -/
def lookupTitle (tasks : List TaskRow) (tid : Option String) : String :=
  ((tasks.find? (fun t => tid == some t.id)).map TaskRow.title).getD "tasca"

/-- The client tool-call executor: dispatches on the tool name, performs the
store mutation scoped to the calling user, calls `onTasksChanged` (recorded as
`reconciled`) after a successful store call, and returns the ActionResult.  A
store error (the status check constraint, or a missing not-null column on
insert) is thrown, caught by the surrounding catch, surfaced as an execution
error toast, and yields a null result.  `tasks` is the client task-list prop
(used for the position of an insert and for title lookup), `store` the backing
table. -/
def executeToolCall (uid : String) (tasks store : List TaskRow)
    (toolName : String) (args : ToolArgs) : ExecOutcome :=
  if toolName = "create_task" then
    match args.title, args.priority, args.status with
    | some t, some p, some s =>
      if statusOk s then
        let row : TaskRow :=
          { id := freshId store, user_id := uid, title := t,
            description := args.description, priority := p, status := s,
            due_date := args.due_date, tags := args.tags.getD [],
            position := tasks.length, duracio_estimada := none,
            finalitzacio_tasca := none }
        { store := store ++ [row], toasts := [], reconciled := true,
          result := some { type := ActionType.create, taskTitle := t } }
      else
        { store := store, toasts := [execErrorToast], reconciled := false,
          result := none }
    | _, _, _ =>
      { store := store, toasts := [execErrorToast], reconciled := false,
        result := none }
  else if toolName = "edit_task" then
    if (store.filter (rowMatches args.task_id uid)).all
        (fun r => statusOk (applyEdit r args).status) then
      { store := store.map (fun r =>
          if rowMatches args.task_id uid r then applyEdit r args else r),
        toasts := [], reconciled := true,
        result := some { type := ActionType.edit,
                         taskTitle := lookupTitle tasks args.task_id } }
    else
      { store := store, toasts := [execErrorToast], reconciled := false,
        result := none }
  else if toolName = "delete_task" then
    { store := store.filter (fun r => !(rowMatches args.task_id uid r)),
      toasts := [], reconciled := true,
      result := some { type := ActionType.delete,
                       taskTitle := lookupTitle tasks args.task_id } }
  else
    { store := store, toasts := [], reconciled := false, result := none }

/-- One structured tool call of a model turn: the tool name and the parse
result of its JSON arguments string (`none` records that the external JSON
parser throws on that string). -/
structure ToolCallReq where
  name : String
  arguments : Option ToolArgs
deriving DecidableEq, Repr

/-- The state left by the tool-call loop of `sendMessage`: the store, the
toasts issued, the final value of the `actionResult` variable, and whether an
arguments string failed to parse (which throws out of the loop). -/
structure BatchResult where
  store : List TaskRow
  toasts : List String
  result : Option ActionResult
  parseFailed : Bool
deriving DecidableEq, Repr

/-- The tool-call loop of `sendMessage`: the calls run sequentially in the
order received; the `actionResult` variable is overwritten by every iteration
(also by a null result); a JSON parse failure of an arguments string throws
out of the loop, so the remaining calls of the batch are skipped. -/
def runBatchAux (uid : String) (tasks : List TaskRow) :
    List ToolCallReq → List TaskRow → List String → Option ActionResult →
      BatchResult
  | [], st, ts, r => { store := st, toasts := ts, result := r, parseFailed := false }
  | c :: cs, st, ts, r =>
    match c.arguments with
    | none => { store := st, toasts := ts, result := r, parseFailed := true }
    | some args =>
      let o := executeToolCall uid tasks st c.name args
      runBatchAux uid tasks cs o.store (ts ++ o.toasts) o.result

/-- The tool-call loop started on a fresh turn: empty toast log and a null
`actionResult`. -/
def runBatchRaw (uid : String) (tasks store : List TaskRow)
    (calls : List ToolCallReq) : BatchResult :=
  runBatchAux uid tasks calls store [] none

/-- The canned confirmation synthesized when the model produced tool calls but
no prose, keyed by the type of the `actionResult` left by the loop. -/
def fallbackContent (r : Option ActionResult) : String :=
  match r with
  | some a =>
    match a.type with
    | ActionType.create =>
      "✅ Tasca **\"" ++ a.taskTitle ++ "\"** creada correctament!"
    | ActionType.edit =>
      "✅ Tasca **\"" ++ a.taskTitle ++ "\"** editada correctament!"
    | ActionType.delete =>
      "🗑️ Tasca **\"" ++ a.taskTitle ++ "\"** eliminada correctament!"
  | none => "✅ Acció realitzada correctament!"

/-- An HTTP response produced by the kanban-chat edge function: status code
and JSON body text. -/
structure GatewayResult where
  status : Nat
  body : String
deriving DecidableEq, Repr

/-- The serialized error payload the edge function builds for a failure
message. -/
def errorBody (msg : String) : String := "\x7b\"error\":\"" ++ msg ++ "\"\x7d"

/-- The upstream error mapping of the kanban-chat edge function: a 2xx
upstream response is passed through with status 200; upstream 429 and 402 are
mapped to dedicated error payloads returned with the same status; every other
upstream status becomes a generic error payload with status 500. -/
def kanbanChatRelay (upstreamStatus : Nat) (upstreamBody : String) :
    GatewayResult :=
  if 200 ≤ upstreamStatus ∧ upstreamStatus ≤ 299 then
    { status := 200, body := upstreamBody }
  else if upstreamStatus = 429 then
    { status := 429,
      body := errorBody "Rate limit exceeded. Please try again in a moment." }
  else if upstreamStatus = 402 then
    { status := 402,
      body := errorBody "AI usage limit reached. Please add credits to continue." }
  else
    { status := 500, body := errorBody "AI service error. Please try again." }

/-- One chat message of the client-held list. -/
structure ChatMsg where
  id : String
  role : String
  content : String
  action : Option ActionResult
deriving DecidableEq, Repr

/-- The relevant part of `choices[0].message` of a chat-completion payload:
optional prose content and the list of tool calls. -/
structure AssistantMsg where
  content : Option String
  tool_calls : List ToolCallReq
deriving DecidableEq, Repr

/-- The decoded JSON body of a successful relay response: an optional error
field and the optional first-choice message. -/
structure ChatData where
  error : Option String
  message : Option AssistantMsg
deriving DecidableEq, Repr

/-- The observable outcome of one `sendMessage` turn of the tool-calling chat
component: the message list, the toasts issued, the store contents, and the
number of upstream requests issued. -/
structure SendOutcome where
  messages : List ChatMsg
  toasts : List String
  store : List TaskRow
  fetches : Nat
deriving DecidableEq, Repr

/-- Whitespace predicate of the external string trim. -/
def isJsSpace (c : Char) : Bool :=
  c = ' ' || c = '\t' || c = '\n' || c = '\r' || c = Char.ofNat 11 ||
    c = Char.ofNat 12

/-- Trim of a character list: whitespace removed from both ends. -/
def jsTrimL (l : List Char) : List Char :=
  ((l.dropWhile isJsSpace).reverse.dropWhile isJsSpace).reverse

/-- Trim of a string. -/
def jsTrimS (s : String) : String := String.mk (jsTrimL s.data)

/-- The `sendMessage` turn of the tool-calling chat component, as a function
of the HTTP response its single fetch produces (`none` is a network failure;
otherwise the status code and the parse of the body).  It appends the user
message, dispatches on status 429 / 402 / other non-success, and on success
runs the tool-call batch and appends the assistant message carrying either the
model prose or, after tool calls with no prose, the synthesized confirmation.
`fetches` counts the upstream requests issued by the turn. -/
def sendMessageP2 (uid : String) (tasks store : List TaskRow)
    (messages : List ChatMsg) (input : String) (nowId : String)
    (response : Option (Nat × Option ChatData)) : SendOutcome :=
  let text := jsTrimS input
  if text = "" then
    { messages := messages, toasts := [], store := store, fetches := 0 }
  else
    let msgs1 := messages ++
      [{ id := nowId, role := "user", content := text, action := none }]
    match response with
    | none =>
      { messages := msgs1, toasts := [connErrorToast], store := store, fetches := 1 }
    | some (status, data) =>
      if status = 429 then
        { messages := msgs1, toasts := [rateLimitToast], store := store, fetches := 1 }
      else if status = 402 then
        { messages := msgs1, toasts := [quotaToast], store := store, fetches := 1 }
      else if ¬(200 ≤ status ∧ status ≤ 299) then
        { messages := msgs1, toasts := [connErrorToast], store := store, fetches := 1 }
      else
        match data with
        | none =>
          { messages := msgs1, toasts := [connErrorToast], store := store, fetches := 1 }
        | some d =>
          match d.error with
          | some _ =>
            { messages := msgs1, toasts := [connErrorToast], store := store, fetches := 1 }
          | none =>
            let am := d.message
            let calls := (am.map AssistantMsg.tool_calls).getD []
            let b := runBatchRaw uid tasks store calls
            if b.parseFailed then
              { messages := msgs1, toasts := b.toasts ++ [connErrorToast],
                store := b.store, fetches := 1 }
            else
              let c0 := (am.bind AssistantMsg.content).getD ""
              let contentF :=
                if calls ≠ [] ∧ c0 = "" then fallbackContent b.result else c0
              let asst : ChatMsg :=
                { id := "assistant-" ++ nowId, role := "assistant",
                  content := contentF, action := b.result }
              { messages := msgs1 ++ [asst], toasts := b.toasts,
                store := b.store, fetches := 1 }

/-- The completed percentage of the board header:
the done-column share of all tasks rounded to an integer percentage when tasks
exist, otherwise 0.  The external half-up rounding of the quotient times 100
is modelled exactly on naturals. -/
def completionRate (tasks : List TaskRow) : Nat :=
  let dn := (tasks.filter (fun t => t.status == "done")).length
  if tasks.length > 0 then (200 * dn + tasks.length) / (2 * tasks.length) else 0

/-- Half-up rounding of a rational to an integer: the `round` of the
specification text. -/
def roundHalfUp (q : ℚ) : ℤ := Int.floor (q + 1 / 2)

/-- The column labels of the moved-task toast. -/
def statusLabel (s : String) : String :=
  if s = "todo" then "Per fer"
  else if s = "in_progress" then "En curs"
  else if s = "done" then "Fet ✓"
  else ""

/-- The drag-and-drop handler of the board page: a no-op without a dragged
task or when the task is dropped on its own column; otherwise one store update
on the row with the dragged id that writes the new status and the completion
timestamp — set to the current instant when the new status is done, cleared
otherwise.  A store rejection (the status check) surfaces an error toast and
leaves the store unchanged. -/
def handleDrop (store : List TaskRow) (dragged : Option TaskRow)
    (newStatus : String) (now : String) : List TaskRow × List String :=
  match dragged with
  | none => (store, [])
  | some t =>
    if t.status = newStatus then (store, [])
    else if statusOk newStatus then
      (store.map (fun r =>
        if r.id = t.id then
          { r with
            status := newStatus,
            finalitzacio_tasca := if newStatus = "done" then some now else none }
        else r),
       ["Tasca moguda a " ++ statusLabel newStatus])
    else (store, ["Error movent tasca"])

/-- The task-modal save in edit mode: one update on the row with the edited
task id writing owner, trimmed title, description (null when blank), the
column status prop, priority, due date (null when blank), estimated duration
and tags.  The update data contains no completion-timestamp field.  A blank
title is refused before the store call; a store rejection leaves the store
unchanged. -/
def modalSaveEdit (uid : String) (store : List TaskRow) (taskId : String)
    (title description status priority dueDate : String) (dur : Nat)
    (tags : List String) : List TaskRow :=
  if jsTrimS title = "" then store
  else if statusOk status then
    store.map (fun r =>
      if r.id = taskId then
        { r with
          user_id := uid, title := jsTrimS title,
          description := if jsTrimS description = "" then none
            else some (jsTrimS description),
          status := status, priority := priority,
          due_date := if dueDate = "" then none else some dueDate,
          duracio_estimada := some dur, tags := tags }
      else r)
  else store

/-- Whether the character list `l` starts with the character list `pre`. -/
def startsWithL : List Char → List Char → Bool
  | [], _ => true
  | _ :: _, [] => false
  | p :: ps, c :: cs => p == c && startsWithL ps cs

/-- The opening text of a gateway delta fragment, up to the content string. -/
def deltaPre : List Char :=
  "\x7b\"choices\":[\x7b\"delta\":\x7b\"content\":\"".data

/-- The closing text of a gateway delta fragment, after the content string. -/
def deltaSuf : List Char := "\"\x7d\x7d]\x7d".data

/-- Modelled from the spec: the external JSON parser applied to one streaming
fragment, followed by the optional-chained access to the first-choice delta
content — the gateway fragment shape of the streaming response mode.  It is
restricted to fragments of exactly that object shape with an escape-free
content string; any other or truncated text is a parse failure (`none`), and
`some none` stands for a parsed fragment without a content delta. -/
def parseDelta (l : List Char) : Option (Option (List Char)) :=
  if startsWithL deltaPre l then
    let rest := l.drop deltaPre.length
    let mid := rest.takeWhile (fun c => c != '"')
    let tail := rest.drop mid.length
    if tail = deltaSuf && mid.all (fun c => c != '\\') then some (some mid)
    else none
  else none

/-- Drop of a trailing carriage return from an extracted line. -/
def stripCR (l : List Char) : List Char :=
  if l.getLast? = some '\r' then l.dropLast else l

/-- The action one extracted line causes in the decoder loop. -/
inductive LineAct
  | skip
  | push (c : List Char)
  | finish
  | fail
deriving DecidableEq, Repr

/-- One iteration of the decoder line loop: strip a trailing carriage return,
skip comment lines and blank lines, skip lines without the data marker,
recognise the `[DONE]` sentinel, and otherwise parse the fragment — a parse
failure is the catch that re-buffers the line, and an empty or absent content
delta appends nothing. -/
def processLine (line : List Char) : LineAct :=
  let l := stripCR line
  if startsWithL [':'] l || jsTrimL l = [] then LineAct.skip
  else if !startsWithL ("data: ".data) l then LineAct.skip
  else
    let jsonStr := jsTrimL (l.drop 6)
    if jsonStr = "[DONE]".data then LineAct.finish
    else
      match parseDelta jsonStr with
      | none => LineAct.fail
      | some none => LineAct.skip
      | some (some c) => if c = [] then LineAct.skip else LineAct.push c

/-- The decoder state between reads: the undecoded buffer, the assembled
assistant content, and whether the `[DONE]` sentinel was seen. -/
structure SSEState where
  buffer : List Char
  content : List Char
  sseDone : Bool
deriving DecidableEq, Repr

/-- The inner line loop of the streaming decoder, as a left-to-right scan of
the buffer: `pending` holds the (reversed) characters of the line being
delimited; at each newline the completed line is processed — `skip` and `push`
continue the loop, `finish` breaks with the sentinel seen, and `fail` restores
the line to the front of the buffer and breaks; at the end of input the
incomplete line stays buffered for the next read. -/
def drainAux (pending content : List Char) : List Char → SSEState
  | [] => { buffer := pending.reverse, content := content, sseDone := false }
  | c :: cs =>
    if c = '\n' then
      match processLine pending.reverse with
      | LineAct.skip => drainAux [] content cs
      | LineAct.push d => drainAux [] (content ++ d) cs
      | LineAct.finish => { buffer := cs, content := content, sseDone := true }
      | LineAct.fail =>
        { buffer := pending.reverse ++ '\n' :: cs, content := content,
          sseDone := false }
    else drainAux (c :: pending) content cs

/-- One outer read iteration of the decoder: once the sentinel was seen no
further chunk is read; otherwise the arriving chunk is appended to the buffer
and the line loop runs. -/
def feedChunk (s : SSEState) (chunk : List Char) : SSEState :=
  if s.sseDone then s
  else drainAux [] s.content (s.buffer ++ chunk)

/-- The decoder state before the first read. -/
def initSSE : SSEState := { buffer := [], content := [], sseDone := false }

/-- The streaming decoder applied to the successive network chunks of a
response body. -/
def decodeChunks (chunks : List (List Char)) : SSEState :=
  chunks.foldl feedChunk initSSE

/-- Observational equivalence of decoder states: same assembled content and
sentinel flag, and the same buffer as long as the stream is still live (after
the sentinel the buffer is dead: no further chunk is read). -/
def SSEEquiv (s t : SSEState) : Prop :=
  s.content = t.content ∧ s.sseDone = t.sseDone ∧
    (s.sseDone = false → s.buffer = t.buffer)

/-- The fixed byte stream of the streaming-decode scenario: a delta fragment
carrying "Hel", a delta fragment carrying "lo", a blank line, and the `[DONE]`
sentinel line. -/
def helloStream : String :=
  "data: \x7b\"choices\":[\x7b\"delta\":\x7b\"content\":\"Hel\"\x7d\x7d]\x7d\n" ++
  "data: \x7b\"choices\":[\x7b\"delta\":\x7b\"content\":\"lo\"\x7d\x7d]\x7d\n" ++
  "\n" ++
  "data: [DONE]\n"

/-- A network read that ends in the middle of the first JSON fragment. -/
def helloChunkA : String := "data: \x7b\"choices\":[\x7b\"delta\":\x7b\"con"

/-- The rest of the stream, arriving as the second network read. -/
def helloChunkB : String :=
  "tent\":\"Hel\"\x7d\x7d]\x7d\n" ++
  "data: \x7b\"choices\":[\x7b\"delta\":\x7b\"content\":\"lo\"\x7d\x7d]\x7d\n" ++
  "\n" ++
  "data: [DONE]\n"

/-- Fixture: a task owned by user u2. -/
def cexForeignRow : TaskRow :=
  { id := "t1", user_id := "u2", title := "Other", description := none,
    priority := "low", status := "todo", due_date := none, tags := [],
    position := 0, duracio_estimada := none, finalitzacio_tasca := none }

/-- Fixture: a to-do task owned by user u1 with no completion timestamp. -/
def cexTodoRow : TaskRow :=
  { id := "t0", user_id := "u1", title := "First", description := none,
    priority := "low", status := "todo", due_date := none, tags := [],
    position := 0, duracio_estimada := none, finalitzacio_tasca := none }

/-- Fixture: a done task owned by user u1. -/
def cexDoneRow : TaskRow :=
  { id := "t9", user_id := "u1", title := "Old", description := none,
    priority := "low", status := "done", due_date := none, tags := [],
    position := 1, duracio_estimada := none, finalitzacio_tasca := some "2024-01-01" }

/-- Fixture: edit arguments naming a task the caller does not own. -/
def cexEditArgs : ToolArgs := { task_id := some "t1", title := some "Hacked" }

/-- Fixture: create arguments with an empty title and a priority outside the
enum, but a valid status. -/
def cexNoValidArgs : ToolArgs :=
  { title := some "", priority := some "urgent", status := some "todo" }

/-- Fixture: valid create arguments targeting the done column. -/
def cexDoneArgs : ToolArgs :=
  { title := some "New", priority := some "low", status := some "done" }

/-- Fixture: edit arguments moving a task into the done column. -/
def cexStatusDoneArgs : ToolArgs :=
  { task_id := some "t0", status := some "done" }

/-- Fixture: create arguments with a status the store rejects. -/
def cexBadArgs : ToolArgs :=
  { title := some "B", priority := some "low", status := some "blocked" }

/-- Fixture: a well-formed create tool call. -/
def cexCreateA : ToolCallReq :=
  { name := "create_task",
    arguments := some { title := some "A", priority := some "low",
                        status := some "todo" } }

/-- Fixture: a create tool call whose status the store rejects, so its
execution errors and yields a null result. -/
def cexCreateBad : ToolCallReq :=
  { name := "create_task",
    arguments := some { title := some "B", priority := some "low",
                        status := some "blocked" } }

/-- Fixture: a successful call followed by a failing one. -/
def cexBatchC5 : List ToolCallReq := [cexCreateA, cexCreateBad]

/-- Fixture: a tool call whose arguments string does not parse. -/
def cexParseFailCall : ToolCallReq := { name := "edit_task", arguments := none }

/-- Fixture: a model turn answering with an unparseable tool call followed by
a well-formed create call and no prose. -/
def cexDataC6 : ChatData :=
  { error := none,
    message := some { content := none,
                      tool_calls := [cexParseFailCall, cexCreateA] } }

theorem sseEquiv_refl (s : SSEState) : SSEEquiv s s := ⟨rfl, rfl, fun _ => rfl⟩

theorem sseEquiv_of_eq {s t : SSEState} (h : s = t) : SSEEquiv s t := by
  subst h; exact sseEquiv_refl s

theorem sseEquiv_trans {s t u : SSEState} (h1 : SSEEquiv s t)
    (h2 : SSEEquiv t u) : SSEEquiv s u := by
  obtain ⟨a1, b1, c1⟩ := h1
  obtain ⟨a2, b2, c2⟩ := h2
  exact ⟨a1.trans a2, b1.trans b2, fun h => (c1 h).trans (c2 (b1 ▸ h))⟩

theorem sseEquiv_eq {s t : SSEState} (h : SSEEquiv s t)
    (hd : s.sseDone = false) : s = t := by
  obtain ⟨a, b, c⟩ := h
  cases s
  cases t
  simp only at a b c hd
  subst hd
  simp [a, b.symm, c rfl]

theorem drainAux_nil (pending content : List Char) :
    drainAux pending content [] =
      { buffer := pending.reverse, content := content, sseDone := false } := rfl

theorem drainAux_cons_other {c : Char} (hc : c ≠ '\n')
    (pending content cs : List Char) :
    drainAux pending content (c :: cs) = drainAux (c :: pending) content cs := by
  simp [drainAux, hc]

theorem drainAux_cons_newline (pending content cs : List Char) :
    drainAux pending content ('\n' :: cs) =
      match processLine pending.reverse with
      | LineAct.skip => drainAux [] content cs
      | LineAct.push d => drainAux [] (content ++ d) cs
      | LineAct.finish => { buffer := cs, content := content, sseDone := true }
      | LineAct.fail =>
        { buffer := pending.reverse ++ '\n' :: cs, content := content,
          sseDone := false } := by
  simp [drainAux]

theorem drainAux_scan (content b : List Char) :
    ∀ (xs q : List Char), (∀ x ∈ xs, x ≠ '\n') →
      drainAux q content (xs ++ b) = drainAux (xs.reverse ++ q) content b := by
  intro xs
  induction xs with
  | nil => intro q _; simp
  | cons x xs ih =>
    intro q h
    have hx : x ≠ '\n' := h x (by simp)
    rw [List.cons_append, drainAux_cons_other hx,
      ih (x :: q) (fun y hy => h y (List.mem_cons_of_mem x hy))]
    simp

theorem drainAux_flush (b : List Char) :
    ∀ (bufrest pending content : List Char), (∀ x ∈ pending, x ≠ '\n') →
      SSEEquiv (feedChunk (drainAux pending content bufrest) b)
        (drainAux pending content (bufrest ++ b)) := by
  intro bufrest
  induction bufrest with
  | nil =>
    intro pending content hp
    apply sseEquiv_of_eq
    have hrev : ∀ x ∈ pending.reverse, x ≠ '\n' := by
      intro x hx; exact hp x (List.mem_reverse.mp hx)
    simp only [drainAux, feedChunk, List.nil_append]
    rw [drainAux_scan content b pending.reverse [] hrev]
    simp
  | cons c cs ih =>
    intro pending content hp
    by_cases hc : c = '\n'
    · subst hc
      rw [List.cons_append, drainAux_cons_newline, drainAux_cons_newline]
      cases hpl : processLine pending.reverse with
      | skip =>
        exact ih [] content (by simp)
      | push d =>
        exact ih [] (content ++ d) (by simp)
      | finish =>
        exact ⟨rfl, rfl, by simp [feedChunk]⟩
      | fail =>
        apply sseEquiv_of_eq
        have hrev : ∀ x ∈ pending.reverse, x ≠ '\n' := by
          intro x hx; exact hp x (List.mem_reverse.mp hx)
        show feedChunk
            { buffer := pending.reverse ++ '\n' :: cs, content := content,
              sseDone := false } b =
          { buffer := pending.reverse ++ '\n' :: (cs ++ b), content := content,
            sseDone := false }
        simp only [feedChunk]
        rw [if_neg (by simp)]
        show drainAux [] content ((pending.reverse ++ '\n' :: cs) ++ b) =
          { buffer := pending.reverse ++ '\n' :: (cs ++ b), content := content,
            sseDone := false }
        have hassoc : (pending.reverse ++ '\n' :: cs) ++ b =
            pending.reverse ++ ('\n' :: (cs ++ b)) := by simp
        rw [hassoc,
          drainAux_scan content ('\n' :: (cs ++ b)) pending.reverse [] hrev,
          List.reverse_reverse, List.append_nil, drainAux_cons_newline, hpl]
    · rw [List.cons_append, drainAux_cons_other hc, drainAux_cons_other hc]
      refine ih (c :: pending) content ?_
      intro x hx
      rcases List.mem_cons.mp hx with h1 | h2
      · exact h1 ▸ hc
      · exact hp x h2

theorem feedChunk_flush (s : SSEState) (a b : List Char) :
    SSEEquiv (feedChunk (feedChunk s a) b) (feedChunk s (a ++ b)) := by
  by_cases hd : s.sseDone
  · simp only [feedChunk, if_pos hd]
    exact sseEquiv_refl s
  · have h1 : feedChunk s a = drainAux [] s.content (s.buffer ++ a) := by
      simp [feedChunk, hd]
    have h2 : feedChunk s (a ++ b) = drainAux [] s.content ((s.buffer ++ a) ++ b) := by
      simp [feedChunk, hd, List.append_assoc]
    rw [h1, h2]
    exact drainAux_flush b (s.buffer ++ a) [] s.content (by simp)

theorem feedChunk_congr {s t : SSEState} (h : SSEEquiv s t) (c : List Char) :
    SSEEquiv (feedChunk s c) (feedChunk t c) := by
  by_cases hd : s.sseDone
  · have ht : t.sseDone = true := by rw [← h.2.1]; exact hd
    simp only [feedChunk, if_pos hd, if_pos ht]
    exact h
  · have hs : s.sseDone = false := by simpa using hd
    rw [sseEquiv_eq h hs]
    exact sseEquiv_refl _

theorem decodeChunks_join (chunks : List (List Char)) :
    SSEEquiv (decodeChunks chunks) (feedChunk initSSE chunks.flatten) := by
  induction chunks using List.reverseRecOn with
  | nil =>
    apply sseEquiv_of_eq
    simp [decodeChunks, feedChunk, initSSE, drainAux]
  | append_singleton cs c ih =>
    have h1 : decodeChunks (cs ++ [c]) = feedChunk (decodeChunks cs) c := by
      simp [decodeChunks]
    rw [h1]
    refine sseEquiv_trans (feedChunk_congr ih c) ?_
    refine sseEquiv_trans (feedChunk_flush initSSE cs.flatten c) ?_
    apply sseEquiv_of_eq
    simp


/-- C1: For every server-sent-event byte stream delivered to the client
streaming decoder consisting of the delta line carrying "Hel", the delta line
carrying "lo", a blank line and the `[DONE]` sentinel, under any split of the
bytes into network chunks the assembled assistant message content is exactly
"Hello": a fragment split across reads stays buffered and is parsed together
with the following chunk rather than discarded. -/
theorem streaming_decode_assembles_hello (chunks : List (List Char))
    (h : chunks.flatten = helloStream.data) :
    (decodeChunks chunks).content = "Hello".data := by
  have h2 := decodeChunks_join chunks
  rw [h] at h2
  exact h2.1.trans (by decide)

/-- Witness for C1: the concrete split that cuts the first JSON fragment in
the middle of a key. -/
theorem streaming_decode_assembles_hello_witness :
    [helloChunkA.data, helloChunkB.data].flatten = helloStream.data ∧
      (decodeChunks [helloChunkA.data, helloChunkB.data]).content =
        "Hello".data :=
  ⟨by decide, streaming_decode_assembles_hello _ (by decide)⟩

/-- C10: For every tool name other than create_task, edit_task and
delete_task, and any arguments, the executor performs no store mutation,
triggers no reconciliation, and returns a null result. -/
theorem unknown_tool_is_noop (uid : String) (tasks store : List TaskRow)
    (toolName : String) (args : ToolArgs)
    (h1 : toolName ≠ "create_task") (h2 : toolName ≠ "edit_task")
    (h3 : toolName ≠ "delete_task") :
    executeToolCall uid tasks store toolName args =
      { store := store, toasts := [], reconciled := false, result := none } := by
  simp [executeToolCall, h1, h2, h3]

/-- Witness for C10: a concrete unknown tool name on a concrete store. -/
theorem unknown_tool_is_noop_witness :
    ("foo_tool" : String) ≠ "create_task" ∧ ("foo_tool" : String) ≠ "edit_task" ∧
      ("foo_tool" : String) ≠ "delete_task" ∧
      executeToolCall "u1" [cexTodoRow] [cexTodoRow] "foo_tool" cexEditArgs =
        { store := [cexTodoRow], toasts := [], reconciled := false,
          result := none } :=
  ⟨by decide, by decide, by decide,
    unknown_tool_is_noop "u1" [cexTodoRow] [cexTodoRow] "foo_tool" cexEditArgs
      (by decide) (by decide) (by decide)⟩

theorem rowMatches_eq_false {tid : Option String} {uid : String} {r : TaskRow}
    (h : ¬(tid = some r.id ∧ r.user_id = uid)) :
    rowMatches tid uid r = false := by
  rw [Bool.eq_false_iff]
  intro hb
  exact h (by simpa [rowMatches, Bool.and_eq_true, beq_iff_eq] using hb)

/-- C2 amended: an edit_task or delete_task call whose task_id matches no row
owned by the caller mutates zero rows (the store is unchanged, so no unrelated
task is touched), does not crash — but it surfaces no failure notice: the
executor reports success, returning an edit or delete ActionResult with the
fallback display title, and still triggers reconciliation. -/
theorem zero_row_match_reports_success (uid : String)
    (tasks store : List TaskRow) (args : ToolArgs)
    (h : ∀ r ∈ store, ¬(args.task_id = some r.id ∧ r.user_id = uid)) :
    executeToolCall uid tasks store "edit_task" args =
        { store := store, toasts := [], reconciled := true,
          result := some { type := ActionType.edit,
                           taskTitle := lookupTitle tasks args.task_id } } ∧
      executeToolCall uid tasks store "delete_task" args =
        { store := store, toasts := [], reconciled := true,
          result := some { type := ActionType.delete,
                           taskTitle := lookupTitle tasks args.task_id } } := by
  have hm : ∀ r ∈ store, rowMatches args.task_id uid r = false :=
    fun r hr => rowMatches_eq_false (h r hr)
  constructor
  · have hfil : store.filter (rowMatches args.task_id uid) = [] :=
      List.filter_eq_nil_iff.mpr (fun r hr => by simp [hm r hr])
    have hmap : store.map (fun r =>
        if rowMatches args.task_id uid r then applyEdit r args else r) = store := by
      have hfun : ∀ r ∈ store,
          (if rowMatches args.task_id uid r then applyEdit r args else r) = id r :=
        fun r hr => by simp [hm r hr]
      rw [List.map_congr_left hfun, List.map_id]
    simp [executeToolCall, hfil, hmap]
  · have hfil2 : store.filter (fun r => !(rowMatches args.task_id uid r)) = store :=
      List.filter_eq_self.mpr (fun r hr => by simp [hm r hr])
    simp [executeToolCall, hfil2]

/-- Witness for C2 amended: a concrete edit of a foreign-owned task. -/
theorem zero_row_match_reports_success_witness :
    (∀ r ∈ [cexForeignRow], ¬(cexEditArgs.task_id = some r.id ∧
        r.user_id = "u1")) ∧
      executeToolCall "u1" [] [cexForeignRow] "edit_task" cexEditArgs =
        { store := [cexForeignRow], toasts := [], reconciled := true,
          result := some { type := ActionType.edit, taskTitle := "tasca" } } :=
  ⟨by decide,
    (zero_row_match_reports_success "u1" [] [cexForeignRow] cexEditArgs
      (by decide)).1⟩

/-- Counterexample for C2 as stated: editing a task the caller does not own
leaves the store untouched and does not crash, but the executor surfaces no
failure notice and reports success (an edit ActionResult), contradicting the
required no-op-failure outcome. -/
theorem zero_row_match_claim_false :
    (executeToolCall "u1" [] [cexForeignRow] "edit_task" cexEditArgs).toasts
        = [] ∧
      (executeToolCall "u1" [] [cexForeignRow] "edit_task" cexEditArgs).result
        = some { type := ActionType.edit, taskTitle := "tasca" } ∧
      (executeToolCall "u1" [] [cexForeignRow] "edit_task" cexEditArgs).store
        = [cexForeignRow] := by
  decide

/-- C3 amended: the executor itself validates nothing for create_task: with
title, priority and status present it inserts the given values verbatim —
including an empty title and a priority outside its enum; only a status
outside its enum is rejected, and that by the store status check constraint,
surfaced as an execution-error notice with nothing inserted and a null
result. -/
theorem create_task_unvalidated (uid : String) (tasks store : List TaskRow)
    (args : ToolArgs) (t p s : String) (ht : args.title = some t)
    (hp : args.priority = some p) (hs : args.status = some s) :
    (statusOk s = true →
      executeToolCall uid tasks store "create_task" args =
        { store := store ++
            [{ id := freshId store, user_id := uid, title := t,
               description := args.description, priority := p, status := s,
               due_date := args.due_date, tags := args.tags.getD [],
               position := tasks.length, duracio_estimada := none,
               finalitzacio_tasca := none }],
          toasts := [], reconciled := true,
          result := some { type := ActionType.create, taskTitle := t } }) ∧
      (statusOk s = false →
        executeToolCall uid tasks store "create_task" args =
          { store := store, toasts := [execErrorToast], reconciled := false,
            result := none }) := by
  constructor
  · intro hok
    simp [executeToolCall, ht, hp, hs, hok]
  · intro hbad
    simp [executeToolCall, ht, hp, hs, hbad]

/-- Witness for C3 amended: both branches at concrete arguments — an empty
title with an out-of-enum priority is inserted, and an out-of-enum status is
rejected with nothing inserted. -/
theorem create_task_unvalidated_witness :
    (statusOk "todo" = true ∧
      executeToolCall "u1" [] [] "create_task" cexNoValidArgs =
        { store := [{ id := "task-0", user_id := "u1", title := "",
                      description := none, priority := "urgent",
                      status := "todo", due_date := none, tags := [],
                      position := 0, duracio_estimada := none,
                      finalitzacio_tasca := none }],
          toasts := [], reconciled := true,
          result := some { type := ActionType.create, taskTitle := "" } }) ∧
      (statusOk "blocked" = false ∧
        executeToolCall "u1" [] [] "create_task"
            { title := some "B", priority := some "low",
              status := some "blocked" } =
          { store := [], toasts := [execErrorToast], reconciled := false,
            result := none }) :=
  ⟨⟨by decide,
      by simpa using
        (create_task_unvalidated "u1" [] [] cexNoValidArgs "" "urgent" "todo"
          (by decide) (by decide) (by decide)).1 (by decide)⟩,
    ⟨by decide,
      (create_task_unvalidated "u1" [] []
        { title := some "B", priority := some "low", status := some "blocked" }
        "B" "low" "blocked" (by decide) (by decide) (by decide)).2 (by decide)⟩⟩

/-- Counterexample for C3 as stated: a create_task call with an empty title
and a priority outside the enum is not rejected — a row is inserted with those
values as given, no error notice is raised, and a create ActionResult is
returned. -/
theorem create_task_validation_claim_false :
    (executeToolCall "u1" [] [] "create_task" cexNoValidArgs).store ≠ [] ∧
      (executeToolCall "u1" [] [] "create_task" cexNoValidArgs).toasts = [] ∧
      (executeToolCall "u1" [] [] "create_task" cexNoValidArgs).result =
        some { type := ActionType.create, taskTitle := "" } ∧
      ((executeToolCall "u1" [] [] "create_task" cexNoValidArgs).store.map
        (fun r => (r.title, r.priority))) = [("", "urgent")] := by
  decide

/-- C4 amended: a successful create_task appends the new task with position
equal to the total number of tasks of the whole client list — all columns
together — not the length of its own column. -/
theorem create_position_is_board_length (uid : String)
    (tasks store : List TaskRow) (args : ToolArgs) (t p s : String)
    (ht : args.title = some t) (hp : args.priority = some p)
    (hs : args.status = some s) (hok : statusOk s = true) :
    ((executeToolCall uid tasks store "create_task" args).store).map
        TaskRow.position =
      store.map TaskRow.position ++ [tasks.length] := by
  simp [executeToolCall, ht, hp, hs, hok]

/-- Witness for C4 amended: a concrete insert on a board with one task. -/
theorem create_position_is_board_length_witness :
    statusOk "done" = true ∧
      ((executeToolCall "u1" [cexTodoRow] [cexTodoRow] "create_task"
          cexDoneArgs).store).map TaskRow.position =
        [cexTodoRow].map TaskRow.position ++ [[cexTodoRow].length] :=
  ⟨by decide,
    create_position_is_board_length "u1" [cexTodoRow] [cexTodoRow] cexDoneArgs
      "New" "low" "done" (by decide) (by decide) (by decide) (by decide)⟩

/-- Counterexample for C4 as stated: creating a task in the done column of a
board whose only task sits in the to-do column writes position 1, while the
done column holds zero tasks — the position is not the length of the target
column. -/
theorem create_position_claim_false :
    ((executeToolCall "u1" [cexTodoRow] [cexTodoRow] "create_task"
          cexDoneArgs).store.getLast?).map TaskRow.position = some 1 ∧
      ([cexTodoRow].filter (fun t => t.status == "done")).length = 0 ∧
      ((executeToolCall "u1" [cexTodoRow] [cexTodoRow] "create_task"
          cexDoneArgs).store.getLast?).map TaskRow.position ≠
        some (([cexTodoRow].filter (fun t => t.status == "done")).length) := by
  decide

theorem runBatchAux_append_single (uid : String) (tasks : List TaskRow)
    (c : ToolCallReq) (args : ToolArgs) (hc : c.arguments = some args) :
    ∀ (calls : List ToolCallReq) (st : List TaskRow) (ts : List String)
      (r : Option ActionResult),
      (runBatchAux uid tasks calls st ts r).parseFailed = false →
      runBatchAux uid tasks (calls ++ [c]) st ts r =
        { store := (executeToolCall uid tasks
            (runBatchAux uid tasks calls st ts r).store c.name args).store,
          toasts := (runBatchAux uid tasks calls st ts r).toasts ++
            (executeToolCall uid tasks
              (runBatchAux uid tasks calls st ts r).store c.name args).toasts,
          result := (executeToolCall uid tasks
            (runBatchAux uid tasks calls st ts r).store c.name args).result,
          parseFailed := false } := by
  intro calls
  induction calls with
  | nil =>
    intro st ts r _
    simp [runBatchAux, hc]
  | cons c2 cs ih =>
    intro st ts r hok
    cases h2 : c2.arguments with
    | none =>
      exfalso
      simp [runBatchAux, h2] at hok
    | some args2 =>
      simp only [List.cons_append, runBatchAux, h2]
      exact ih _ _ _ (by simpa [runBatchAux, h2] using hok)

/-- C5 amended: the tool calls of one model turn run sequentially in the order
received — the final call executes against the store left by the earlier ones
— and the `actionResult` that drives the synthesized confirmation is the
result of the last call, whatever it is: a later call yielding a null result
erases the confirmation of an earlier successful one and the generic canned
sentence is shown instead. -/
theorem batch_sequential_last_result_wins (uid : String)
    (tasks store : List TaskRow) (calls : List ToolCallReq) (c : ToolCallReq)
    (args : ToolArgs) (hc : c.arguments = some args)
    (hok : (runBatchRaw uid tasks store calls).parseFailed = false) :
    runBatchRaw uid tasks store (calls ++ [c]) =
      { store := (executeToolCall uid tasks
          (runBatchRaw uid tasks store calls).store c.name args).store,
        toasts := (runBatchRaw uid tasks store calls).toasts ++
          (executeToolCall uid tasks
            (runBatchRaw uid tasks store calls).store c.name args).toasts,
        result := (executeToolCall uid tasks
          (runBatchRaw uid tasks store calls).store c.name args).result,
        parseFailed := false } := by
  have h := runBatchAux_append_single uid tasks c args hc calls store [] none
  simpa [runBatchRaw] using h hok

/-- Witness for C5 amended: the concrete two-call batch — a successful create
followed by a store-rejected create — evaluated through the theorem. -/
theorem batch_sequential_last_result_wins_witness :
    cexCreateBad.arguments = some cexBadArgs ∧
      (runBatchRaw "u1" [] [] [cexCreateA]).parseFailed = false ∧
      runBatchRaw "u1" [] [] ([cexCreateA] ++ [cexCreateBad]) =
        { store := (executeToolCall "u1" []
            (runBatchRaw "u1" [] [] [cexCreateA]).store cexCreateBad.name
            cexBadArgs).store,
          toasts := (runBatchRaw "u1" [] [] [cexCreateA]).toasts ++
            (executeToolCall "u1" []
              (runBatchRaw "u1" [] [] [cexCreateA]).store cexCreateBad.name
              cexBadArgs).toasts,
          result := (executeToolCall "u1" []
            (runBatchRaw "u1" [] [] [cexCreateA]).store cexCreateBad.name
            cexBadArgs).result,
          parseFailed := false } :=
  ⟨by decide, by decide,
    batch_sequential_last_result_wins "u1" [] [] [cexCreateA] cexCreateBad
      cexBadArgs (by decide) (by decide)⟩

/-- Counterexample for C5 as stated: in the batch create("A") then a failing
create, the last non-null ActionResult is the successful create, yet the
`actionResult` left by the loop is null — the later null result erased it —
and the synthesized confirmation is the generic sentence, not the create
confirmation for "A". -/
theorem batch_last_nonnull_claim_false :
    (runBatchRaw "u1" [] [] [cexCreateA]).result =
        some { type := ActionType.create, taskTitle := "A" } ∧
      (runBatchRaw "u1" [] [] cexBatchC5).result = none ∧
      fallbackContent (runBatchRaw "u1" [] [] cexBatchC5).result =
        "✅ Acció realitzada correctament!" ∧
      fallbackContent (runBatchRaw "u1" [] [] cexBatchC5).result ≠
        fallbackContent (some { type := ActionType.create, taskTitle := "A" }) := by
  decide

/-- C6 amended: within one batch, an error thrown inside `executeToolCall`
(for instance a store rejection) is caught locally — its execution-error
notice is recorded and the remaining calls still run — but a JSON parse
failure of a tool call arguments string throws out of the loop: the remaining
calls of the batch are not executed, whatever they are, and the turn ends in
the outer catch. -/
theorem batch_parse_failure_aborts (uid : String) (tasks store : List TaskRow) :
    (∀ (n : String) (cs : List ToolCallReq),
      runBatchRaw uid tasks store ({ name := n, arguments := none } :: cs) =
        { store := store, toasts := [], result := none, parseFailed := true }) ∧
      (∀ (c : ToolCallReq) (args : ToolArgs) (cs : List ToolCallReq),
        c.arguments = some args →
        (executeToolCall uid tasks store c.name args).toasts =
          [execErrorToast] →
        runBatchRaw uid tasks store (c :: cs) =
          runBatchAux uid tasks cs
            (executeToolCall uid tasks store c.name args).store
            [execErrorToast]
            (executeToolCall uid tasks store c.name args).result) := by
  constructor
  · intro n cs
    simp [runBatchRaw, runBatchAux]
  · intro c args cs hc herr
    simp [runBatchRaw, runBatchAux, hc, herr]

/-- Witness for C6 amended: a store-rejected create followed by a valid
create — the second call still runs, while a parse failure first stops the
batch before any call. -/
theorem batch_parse_failure_aborts_witness :
    cexCreateBad.arguments = some cexBadArgs ∧
      (executeToolCall "u1" [] [] cexCreateBad.name cexBadArgs).toasts =
        [execErrorToast] ∧
      runBatchRaw "u1" [] [] [cexParseFailCall, cexCreateA] =
        { store := [], toasts := [], result := none, parseFailed := true } ∧
      runBatchRaw "u1" [] [] [cexCreateBad, cexCreateA] =
        runBatchAux "u1" [] [cexCreateA]
          (executeToolCall "u1" [] [] cexCreateBad.name cexBadArgs).store
          [execErrorToast]
          (executeToolCall "u1" [] [] cexCreateBad.name cexBadArgs).result :=
  ⟨by decide, by decide,
    (batch_parse_failure_aborts "u1" [] []).1 "edit_task" [cexCreateA],
    (batch_parse_failure_aborts "u1" [] []).2 cexCreateBad cexBadArgs
      [cexCreateA] (by decide) (by decide)⟩

/-- Counterexample for C6 as stated: a turn whose first tool call has
unparseable arguments and whose second is a valid create ends with an empty
store — the remaining call of the batch was not executed — and surfaces the
generic connection-failure notice of the outer catch rather than the
execution-error notice, with no assistant message appended. -/
theorem batch_parse_failure_claim_false :
    (sendMessageP2 "u1" [] [] [] "hola" "1" (some (200, some cexDataC6))).store
        = [] ∧
      (sendMessageP2 "u1" [] [] [] "hola" "1"
          (some (200, some cexDataC6))).toasts = [connErrorToast] ∧
      connErrorToast ≠ execErrorToast ∧
      (sendMessageP2 "u1" [] [] [] "hola" "1"
          (some (200, some cexDataC6))).messages =
        [{ id := "1", role := "user", content := "hola", action := none }] := by
  decide

/-- C7: the relay maps upstream 429 to a rate-limit payload with status 429,
upstream 402 to a quota payload with status 402, and any other non-success
status to the generic payload with status 500; on a 429 or 402 the client
issues exactly one upstream request, shows the rate-limit or quota toast —
two distinguishable notices — and leaves the chat list exactly as it was
before the response: the user message remains appended and unanswered, the
store untouched, whatever the response body held. -/
theorem relay_errors_surfaced_without_retry :
    (∀ body : String, kanbanChatRelay 429 body =
      { status := 429,
        body := errorBody "Rate limit exceeded. Please try again in a moment." }) ∧
      (∀ body : String, kanbanChatRelay 402 body =
        { status := 402,
          body := errorBody "AI usage limit reached. Please add credits to continue." }) ∧
      (∀ (s : Nat) (body : String), ¬(200 ≤ s ∧ s ≤ 299) → s ≠ 429 → s ≠ 402 →
        kanbanChatRelay s body =
          { status := 500,
            body := errorBody "AI service error. Please try again." }) ∧
      (∀ (uid : String) (tasks store : List TaskRow) (messages : List ChatMsg)
        (input nowId : String) (data : Option ChatData), jsTrimS input ≠ "" →
        sendMessageP2 uid tasks store messages input nowId (some (429, data)) =
          { messages := messages ++
              [{ id := nowId, role := "user", content := jsTrimS input,
                 action := none }],
            toasts := [rateLimitToast], store := store, fetches := 1 }) ∧
      (∀ (uid : String) (tasks store : List TaskRow) (messages : List ChatMsg)
        (input nowId : String) (data : Option ChatData), jsTrimS input ≠ "" →
        sendMessageP2 uid tasks store messages input nowId (some (402, data)) =
          { messages := messages ++
              [{ id := nowId, role := "user", content := jsTrimS input,
                 action := none }],
            toasts := [quotaToast], store := store, fetches := 1 }) ∧
      rateLimitToast ≠ quotaToast := by
  refine ⟨fun body => by simp [kanbanChatRelay],
    fun body => by simp [kanbanChatRelay], ?_, ?_, ?_, by decide⟩
  · intro s body h h429 h402
    rw [kanbanChatRelay, if_neg h, if_neg h429, if_neg h402]
  · intro uid tasks store messages input nowId data h
    simp [sendMessageP2, h]
  · intro uid tasks store messages input nowId data h
    simp [sendMessageP2, h]

/-- Witness for C7: the generic mapping and both client outcomes at concrete
inputs. -/
theorem relay_errors_surfaced_without_retry_witness :
    (¬(200 ≤ 503 ∧ 503 ≤ 299) ∧ (503 : Nat) ≠ 429 ∧ (503 : Nat) ≠ 402 ∧
      kanbanChatRelay 503 "x" =
        { status := 500,
          body := errorBody "AI service error. Please try again." }) ∧
      (jsTrimS "hola" ≠ "" ∧
        sendMessageP2 "u1" [] [] [] "hola" "1" (some (429, none)) =
          { messages := [{ id := "1", role := "user", content := "hola",
                           action := none }],
            toasts := [rateLimitToast], store := [], fetches := 1 } ∧
        sendMessageP2 "u1" [] [] [] "hola" "1" (some (402, none)) =
          { messages := [{ id := "1", role := "user", content := "hola",
                           action := none }],
            toasts := [quotaToast], store := [], fetches := 1 }) :=
  ⟨⟨by decide, by decide, by decide,
      relay_errors_surfaced_without_retry.2.2.1 503 "x" (by decide)
        (by decide) (by decide)⟩,
    ⟨by decide,
      (by simpa using relay_errors_surfaced_without_retry.2.2.2.1 "u1" [] [] [] "hola" "1" none (by decide)),
      (by simpa using relay_errors_surfaced_without_retry.2.2.2.2.1 "u1" [] [] [] "hola" "1" none (by decide))⟩⟩

theorem applyEdit_finalitzacio (r : TaskRow) (args : ToolArgs) :
    (applyEdit r args).finalitzacio_tasca = r.finalitzacio_tasca := rfl

/-- C8 amended: only the drag-and-drop path maintains the completion
timestamp — it sets `finalitzacio_tasca` on the dragged row when the task
moves into done and clears it when the task moves to another column — whereas
an edit_task tool call never writes the completion field of any row, even when
it changes the status into or out of done, and the modal save writes no
completion field either (the modal cannot change status in any case: it writes
the fixed column status). -/
theorem completion_timestamp_only_on_drag (store tasks : List TaskRow)
    (t : TaskRow) (now uid taskId : String)
    (newStatus title description status priority dueDate : String) (dur : Nat)
    (tags : List String) (args : ToolArgs) :
    (t.status ≠ "done" →
      ∀ r ∈ (handleDrop store (some t) "done" now).1,
        r.id = t.id → r.finalitzacio_tasca = some now) ∧
      (t.status ≠ newStatus → statusOk newStatus = true → newStatus ≠ "done" →
        ∀ r ∈ (handleDrop store (some t) newStatus now).1,
          r.id = t.id → r.finalitzacio_tasca = none) ∧
      (((executeToolCall uid tasks store "edit_task" args).store).map
          TaskRow.finalitzacio_tasca =
        store.map TaskRow.finalitzacio_tasca) ∧
      ((modalSaveEdit uid store taskId title description status priority
          dueDate dur tags).map TaskRow.finalitzacio_tasca =
        store.map TaskRow.finalitzacio_tasca) := by
  refine ⟨?_, ?_, ?_, ?_⟩
  · intro hne r hr hid
    simp only [handleDrop, if_neg hne] at hr
    rw [if_pos (by decide)] at hr
    simp only at hr
    rcases List.mem_map.mp hr with ⟨a, _, rfl⟩
    by_cases ha : a.id = t.id
    · simp [ha]
    · exfalso
      rw [if_neg ha] at hid
      exact ha hid
  · intro hne hok hnd r hr hid
    simp only [handleDrop, if_neg hne] at hr
    rw [if_pos hok] at hr
    simp only at hr
    rcases List.mem_map.mp hr with ⟨a, _, rfl⟩
    by_cases ha : a.id = t.id
    · simp [ha, hnd]
    · exfalso
      rw [if_neg ha] at hid
      exact ha hid
  · by_cases hall : (store.filter (rowMatches args.task_id uid)).all
        (fun r => statusOk (applyEdit r args).status)
    · have hstep : executeToolCall uid tasks store "edit_task" args =
          { store := store.map (fun r =>
              if rowMatches args.task_id uid r then applyEdit r args else r),
            toasts := [], reconciled := true,
            result := some { type := ActionType.edit,
                             taskTitle := lookupTitle tasks args.task_id } } := by
        simp [executeToolCall, hall]
      rw [hstep]
      simp only [List.map_map]
      refine List.map_congr_left ?_
      intro a _
      by_cases hm : rowMatches args.task_id uid a
      · simp [Function.comp, hm, applyEdit_finalitzacio]
      · simp [Function.comp, hm]
    · have hstep : executeToolCall uid tasks store "edit_task" args =
          { store := store, toasts := [execErrorToast], reconciled := false,
            result := none } := by
        simp [executeToolCall, hall]
      rw [hstep]
  · by_cases ht : jsTrimS title = ""
    · simp [modalSaveEdit, ht]
    · by_cases hs : statusOk status
      · simp only [modalSaveEdit, if_neg ht, if_pos hs, List.map_map]
        refine List.map_congr_left ?_
        intro a _
        by_cases ha : a.id = taskId
        · simp [Function.comp, ha]
        · simp [Function.comp, ha]
      · simp [modalSaveEdit, ht, hs]

/-- Witness for C8 amended: a concrete drag of a to-do task into done and of a
done task back out, and a concrete edit_task and modal save over one-row
stores. -/
theorem completion_timestamp_only_on_drag_witness :
    (cexTodoRow.status ≠ "done" ∧
      ∀ r ∈ (handleDrop [cexTodoRow] (some cexTodoRow) "done" "2024-06-01").1,
        r.id = cexTodoRow.id → r.finalitzacio_tasca = some "2024-06-01") ∧
      (cexDoneRow.status ≠ "todo" ∧ statusOk "todo" = true ∧
        ("todo" : String) ≠ "done" ∧
        ∀ r ∈ (handleDrop [cexDoneRow] (some cexDoneRow) "todo" "x").1,
          r.id = cexDoneRow.id → r.finalitzacio_tasca = none) ∧
      (((executeToolCall "u1" [cexTodoRow] [cexTodoRow] "edit_task"
          cexStatusDoneArgs).store).map TaskRow.finalitzacio_tasca =
        [cexTodoRow].map TaskRow.finalitzacio_tasca) ∧
      ((modalSaveEdit "u1" [cexDoneRow] "t9" "Old" "" "done" "low" "" 30
          []).map TaskRow.finalitzacio_tasca =
        [cexDoneRow].map TaskRow.finalitzacio_tasca) :=
  ⟨⟨by decide,
      (completion_timestamp_only_on_drag [cexTodoRow] [cexTodoRow] cexTodoRow
        "2024-06-01" "u1" "t9" "todo" "Old" "" "done" "low" "" 30 []
        cexStatusDoneArgs).1 (by decide)⟩,
    ⟨by decide, by decide, by decide,
      (completion_timestamp_only_on_drag [cexDoneRow] [cexTodoRow] cexDoneRow
        "x" "u1" "t9" "todo" "Old" "" "done" "low" "" 30 []
        cexStatusDoneArgs).2.1 (by decide) (by decide) (by decide)⟩,
    (completion_timestamp_only_on_drag [cexTodoRow] [cexTodoRow] cexTodoRow
      "2024-06-01" "u1" "t9" "todo" "Old" "" "done" "low" "" 30 []
      cexStatusDoneArgs).2.2.1,
    (completion_timestamp_only_on_drag [cexDoneRow] [cexTodoRow] cexDoneRow
      "x" "u1" "t9" "todo" "Old" "" "done" "low" "" 30 []
      cexStatusDoneArgs).2.2.2⟩

/-- Counterexample for C8 as stated: an edit_task call that moves a to-do task
into done leaves the completion timestamp unset — the status transitions into
done with `finalitzacio_tasca` still null. -/
theorem completion_timestamp_claim_false :
    ((executeToolCall "u1" [cexTodoRow] [cexTodoRow] "edit_task"
        cexStatusDoneArgs).store.map
      (fun r => (r.status, r.finalitzacio_tasca))) = [("done", none)] := by
  decide

/-- C9: for every task list the displayed completion percentage equals the
half-up rounding of 100 times the done count over the total count, and equals
0 when the list is empty — the zero-total branch never divides. -/
theorem completion_rate_rounds (tasks : List TaskRow) :
    (tasks.length = 0 → completionRate tasks = 0) ∧
      (0 < tasks.length →
        (completionRate tasks : ℤ) =
          roundHalfUp (100 *
            ((tasks.filter (fun t => t.status == "done")).length : ℚ) /
            (tasks.length : ℚ))) := by
  constructor
  · intro h
    simp [completionRate, h]
  · intro h
    have hne : ((tasks.length : ℚ)) ≠ 0 :=
      Nat.cast_ne_zero.mpr (Nat.pos_iff_ne_zero.mp h)
    have key : 100 * ((tasks.filter (fun t => t.status == "done")).length : ℚ) /
          (tasks.length : ℚ) + 1 / 2 =
        (((200 * (tasks.filter (fun t => t.status == "done")).length +
            tasks.length : ℕ) : ℤ) : ℚ) / ((2 * tasks.length : ℕ) : ℚ) := by
      push_cast
      field_simp
      ring
    rw [roundHalfUp, key, Rat.floor_intCast_div_natCast]
    have hcr : completionRate tasks =
        (200 * (tasks.filter (fun t => t.status == "done")).length +
          tasks.length) / (2 * tasks.length) := by
      simp only [completionRate]
      rw [if_pos h]
    rw [hcr]
    exact_mod_cast rfl

/-- Witness for C9: the empty board shows 0 and a two-task board with one done
task shows the rounded ratio. -/
theorem completion_rate_rounds_witness :
    (([] : List TaskRow).length = 0 ∧ completionRate [] = 0) ∧
      (0 < [cexTodoRow, cexDoneRow].length ∧
        (completionRate [cexTodoRow, cexDoneRow] : ℤ) =
          roundHalfUp (100 *
            (([cexTodoRow, cexDoneRow].filter
              (fun t => t.status == "done")).length : ℚ) /
            (([cexTodoRow, cexDoneRow] : List TaskRow).length : ℚ))) :=
  ⟨⟨rfl, (completion_rate_rounds []).1 rfl⟩,
    ⟨by decide, (completion_rate_rounds [cexTodoRow, cexDoneRow]).2 (by decide)⟩⟩

end ZenBoard
